import Mathlib

/-!
Verification of the Q-SITE 2023 IBM quantum mini-challenge notebooks.

The repository consists of two Jupyter notebooks (`challenge_chsh.ipynb`,
`challenge_circuit_depth.ipynb`) and a plain-text setup guide.  The
notebooks build small quantum circuits out of Qiskit library calls (H,
CNOT, RY, Pauli observables, measurement) and run them on simulators.

This file embeds:
* the two-qubit circuit `qc = (h 0; cx 0 1; ry θ 0)` of the CHSH
  experiment and the `bell = (h 0; cx 0 1)` circuit of the depth
  notebook, as real statevectors (all gates used have real matrices);
* the three-qubit teleportation circuit `full_qc` with its mid-circuit
  measurements and classically conditioned corrections;
* the classical CHSH-bound derivation of the notebook's markdown;
* Qiskit's circuit-depth computation on the gate lists of the two
  depth examples;
* the notebooks' code cells and the setup guide's package list, as
  structured data, for the textual claims about imports, error
  handling, shared mutable globals and persistence.
-/

namespace QSite

noncomputable section

open Real

/-! ## Two-qubit statevector model

Amplitudes are indexed by the bits `(b1, b0)` of the basis state
`|b1 b0⟩` (little-endian: `b0` is Qiskit's qubit 0).  All gates in the
CHSH circuit (`h`, `cx`, `ry`) have real matrices, so real amplitudes
suffice. -/

/-- A two-qubit statevector: amplitude of basis state `|b1 b0⟩`. -/
def QState2 := Bool → Bool → ℝ

/-- The initial state `|00⟩` (Qiskit initializes all qubits to `|0⟩`). -/
def init2 : QState2 := fun b1 b0 => if b1 = false ∧ b0 = false then 1 else 0

/-- `qc.h(0)`: Hadamard on qubit 0. -/
def h0 (ψ : QState2) : QState2 := fun b1 b0 =>
  if b0 then (ψ b1 false - ψ b1 true) / Real.sqrt 2
  else (ψ b1 false + ψ b1 true) / Real.sqrt 2

/-- `qc.cx(0, 1)`: CNOT with control qubit 0 and target qubit 1. -/
def cx01 (ψ : QState2) : QState2 := fun b1 b0 => ψ (xor b1 b0) b0

/-- `qc.ry(θ, 0)`: the rotation `RY(θ)` on qubit 0, with Qiskit's matrix
`[[cos (θ/2), -sin (θ/2)], [sin (θ/2), cos (θ/2)]]`. -/
def ry0 (θ : ℝ) (ψ : QState2) : QState2 := fun b1 b0 =>
  if b0 then Real.sin (θ / 2) * ψ b1 false + Real.cos (θ / 2) * ψ b1 true
  else Real.cos (θ / 2) * ψ b1 false - Real.sin (θ / 2) * ψ b1 true

/-- The Bell-preparation circuit `bell` of the depth notebook and the
entangling prefix of the CHSH circuit: `h(0); cx(0,1)` from `|00⟩`. -/
def bellState : QState2 := cx01 (h0 init2)

/-- The parameterized CHSH circuit `qc`: `h(0); cx(0,1); ry(θ,0)`. -/
def chshState (θ : ℝ) : QState2 := ry0 θ bellState

/-- Z-basis measurement probability of outcome `(b1, b0)` (Born rule,
real amplitudes). -/
def measureProb2 (ψ : QState2) (b1 b0 : Bool) : ℝ := ψ b1 b0 ^ 2

/-! ## Pauli observables

The notebook builds the CHSH witness from single-qubit Pauli
measurements, each `X` or `Z` (`A, a ∈ {IX, IZ}` on qubit 0 and
`B, b ∈ {XI, ZI}` on qubit 1). -/

/-- A single-qubit Pauli measurement basis used by the notebook. -/
inductive Pauli
  | X
  | Z

/-- Apply a Pauli operator to qubit 0 of a two-qubit state. -/
def applyP0 : Pauli → QState2 → QState2
  | Pauli.X, ψ => fun b1 b0 => ψ b1 (!b0)
  | Pauli.Z, ψ => fun b1 b0 => (if b0 then -1 else 1) * ψ b1 b0

/-- Apply a Pauli operator to qubit 1 of a two-qubit state. -/
def applyP1 : Pauli → QState2 → QState2
  | Pauli.X, ψ => fun b1 b0 => ψ (!b1) b0
  | Pauli.Z, ψ => fun b1 b0 => (if b1 then -1 else 1) * ψ b1 b0

/-- Real inner product `⟨ψ, φ⟩` of two-qubit statevectors. -/
def inner2 (ψ φ : QState2) : ℝ :=
  ψ false false * φ false false + ψ false true * φ false true +
    ψ true false * φ true false + ψ true true * φ true true

/-- Expectation value `⟨ψ| P1 ⊗ P0 |ψ⟩` of the two-qubit Pauli with
`p1` acting on qubit 1 and `p0` on qubit 0 (the Pauli string `p1 p0`
in Qiskit's little-endian convention). -/
def pauliExp (p1 p0 : Pauli) (ψ : QState2) : ℝ := inner2 ψ (applyP1 p1 (applyP0 p0 ψ))

/-- Expectation of the CHSH witness `AB - Ab + aB + ab`, where `A, a`
are Alice's bases on qubit 0 and `B, b` Bob's bases on qubit 1. -/
def chshExp (A a B b : Pauli) (ψ : QState2) : ℝ :=
  pauliExp B A ψ - pauliExp b A ψ + pauliExp B a ψ + pauliExp b a ψ

end

/-! ### Evaluation lemmas for the CHSH state -/

lemma sqrt_two_sq : Real.sqrt 2 ^ 2 = 2 := Real.sq_sqrt (by norm_num)

lemma sqrt_two_pos : 0 < Real.sqrt 2 := Real.sqrt_pos.mpr (by norm_num)

lemma bellState_eval (b1 b0 : Bool) :
    bellState b1 b0 = if b1 = b0 then 1 / Real.sqrt 2 else 0 := by
  cases b1 <;> cases b0 <;>
    simp [bellState, cx01, h0, init2]

lemma chshExp_chshState (θ : ℝ) :
    chshExp Pauli.Z Pauli.X Pauli.Z Pauli.X (chshState θ) =
      2 * Real.cos θ + 2 * Real.sin θ := by
  have hc : Real.sin (θ / 2) ^ 2 + Real.cos (θ / 2) ^ 2 = 1 :=
    Real.sin_sq_add_cos_sq (θ / 2)
  have hcos : Real.cos θ = 2 * Real.cos (θ / 2) ^ 2 - 1 := by
    have h2 : 2 * (θ / 2) = θ := by ring
    have := Real.cos_two_mul (θ / 2)
    rw [h2] at this
    linarith
  have hsin : Real.sin θ = 2 * Real.sin (θ / 2) * Real.cos (θ / 2) := by
    have h2 : 2 * (θ / 2) = θ := by ring
    have := Real.sin_two_mul (θ / 2)
    rw [h2] at this
    linarith
  have hs : Real.sqrt 2 ≠ 0 := ne_of_gt sqrt_two_pos
  simp only [chshExp, pauliExp, inner2, applyP0, applyP1, chshState, ry0, bellState,
    cx01, h0, init2]
  simp only [Bool.xor_false, Bool.xor_true, Bool.not_true, Bool.not_false]
  norm_num
  field_simp
  nlinarith [sqrt_two_sq, hc, hcos, hsin,
    Real.sin_sq_add_cos_sq (θ / 2)]

lemma one_lt_sqrt_two : 1 < Real.sqrt 2 := by
  nlinarith [sqrt_two_sq, Real.sqrt_nonneg 2]

lemma one_lt_sqrt_three : 1 < Real.sqrt 3 := by
  nlinarith [Real.sq_sqrt (by norm_num : (0:ℝ) ≤ 3), Real.sqrt_nonneg 3]

/-- **C4.** Bell state preparation: applying `h(0)` then `cx(0,1)` to
`|00⟩` (the `bell` circuit of the depth notebook, before its final
measurement) produces exactly `(|00⟩ + |11⟩)/√2`, so a Z-basis
measurement of both qubits yields `00` with probability `1/2`, `11`
with probability `1/2`, and `01`, `10` with probability `0`. -/
theorem C4_bell_state_preparation :
    (bellState false false = 1 / Real.sqrt 2 ∧ bellState false true = 0 ∧
      bellState true false = 0 ∧ bellState true true = 1 / Real.sqrt 2) ∧
    (measureProb2 bellState false false = 1 / 2 ∧
      measureProb2 bellState false true = 0 ∧
      measureProb2 bellState true false = 0 ∧
      measureProb2 bellState true true = 1 / 2) := by
  have hs : Real.sqrt 2 ≠ 0 := ne_of_gt sqrt_two_pos
  refine ⟨⟨?_, ?_, ?_, ?_⟩, ⟨?_, ?_, ?_, ?_⟩⟩ <;>
    simp [bellState_eval, measureProb2, div_pow, one_pow, sqrt_two_sq]

/-- **C1.** CHSH violation: for the circuit `h(0); cx(0,1); ry(θ,0)`
on `|00⟩` there is a CHSH witness `AB - Ab + aB + ab` built from
single-qubit Pauli operators and at least three distinct angles `θ`
at which the exact expectation value of the witness has absolute
value strictly greater than 2. -/
theorem C1_chsh_violation :
    ∃ (A a B b : Pauli) (θ₁ θ₂ θ₃ : ℝ),
      θ₁ ≠ θ₂ ∧ θ₁ ≠ θ₃ ∧ θ₂ ≠ θ₃ ∧
      2 < |chshExp A a B b (chshState θ₁)| ∧
      2 < |chshExp A a B b (chshState θ₂)| ∧
      2 < |chshExp A a B b (chshState θ₃)| := by
  refine ⟨Pauli.Z, Pauli.X, Pauli.Z, Pauli.X,
    Real.pi / 6, Real.pi / 4, Real.pi / 3, ?_, ?_, ?_, ?_, ?_, ?_⟩
  · intro h
    have := Real.pi_pos
    linarith
  · intro h
    have := Real.pi_pos
    linarith
  · intro h
    have := Real.pi_pos
    linarith
  · rw [chshExp_chshState, Real.cos_pi_div_six, Real.sin_pi_div_six]
    rw [abs_of_pos (by nlinarith [one_lt_sqrt_three])]
    nlinarith [one_lt_sqrt_three]
  · rw [chshExp_chshState, Real.cos_pi_div_four, Real.sin_pi_div_four]
    rw [abs_of_pos (by nlinarith [one_lt_sqrt_two])]
    nlinarith [one_lt_sqrt_two]
  · rw [chshExp_chshState, Real.cos_pi_div_three, Real.sin_pi_div_three]
    rw [abs_of_pos (by nlinarith [one_lt_sqrt_three])]
    nlinarith [one_lt_sqrt_three]

/-! ## Teleportation model

`full_qc` acts on three qubits: `q` (qubit 0, register `q`), `Bell₀`
(qubit 1) and `Bell₁` (qubit 2, Bob's qubit).  Its unitary part is
`ry(θ,0); h(1); cx(1,2); cx(0,1); h(0)`; then qubits 0 and 1 are
measured into Alice's classical register, an `X` on qubit 2 is
conditioned on Alice's measurement of `Bell₀` and a `Z` on qubit 2 on
her measurement of `q`, and finally Bob measures qubit 2. -/

noncomputable section

/-- A three-qubit statevector: amplitude of basis state `|b2 b1 b0⟩`. -/
def QState3 := Bool → Bool → Bool → ℝ

/-- The initial state `|000⟩`. -/
def init3 : QState3 := fun b2 b1 b0 =>
  if b2 = false ∧ b1 = false ∧ b0 = false then 1 else 0

/-- `tele_qc`'s opening `ry(θ, 0)` (the state Alice wishes to send). -/
def t_ry0 (θ : ℝ) (ψ : QState3) : QState3 := fun b2 b1 b0 =>
  if b0 then Real.sin (θ / 2) * ψ b2 b1 false + Real.cos (θ / 2) * ψ b2 b1 true
  else Real.cos (θ / 2) * ψ b2 b1 false - Real.sin (θ / 2) * ψ b2 b1 true

/-- `tele_qc.h(1)`: Hadamard on qubit 1 (`Bell₀`). -/
def t_h1 (ψ : QState3) : QState3 := fun b2 b1 b0 =>
  if b1 then (ψ b2 false b0 - ψ b2 true b0) / Real.sqrt 2
  else (ψ b2 false b0 + ψ b2 true b0) / Real.sqrt 2

/-- `tele_qc.cx(1, 2)`: CNOT with control `Bell₀` and target `Bell₁`. -/
def t_cx12 (ψ : QState3) : QState3 := fun b2 b1 b0 => ψ (xor b2 b1) b1 b0

/-- `tele_qc.cx(0, 1)`: Alice's CNOT with control `q` and target `Bell₀`. -/
def t_cx01 (ψ : QState3) : QState3 := fun b2 b1 b0 => ψ b2 (xor b1 b0) b0

/-- `tele_qc.h(0)`: Alice's Hadamard on `q`. -/
def t_h0 (ψ : QState3) : QState3 := fun b2 b1 b0 =>
  if b0 then (ψ b2 b1 false - ψ b2 b1 true) / Real.sqrt 2
  else (ψ b2 b1 false + ψ b2 b1 true) / Real.sqrt 2

/-- The unitary part of `full_qc` before any measurement:
`ry(θ,0); h(1); cx(1,2); cx(0,1); h(0)` on `|000⟩`. -/
def teleUnitary (θ : ℝ) : QState3 := t_h0 (t_cx01 (t_cx12 (t_h1 (t_ry0 θ init3))))

/-- Bob's (unnormalized) amplitude for outcome `b` after Alice measures
`q ↦ a0` and `Bell₀ ↦ a1` and the conditioned corrections run: first
`full_qc.x(2)` if `a1 = 1`, then `full_qc.z(2)` if `a0 = 1`.  The square
of this amplitude is the joint probability of `(a0, a1, b)`. -/
def bobAmp (θ : ℝ) (a0 a1 b : Bool) : ℝ :=
  let φ : Bool → ℝ := fun bb => teleUnitary θ bb a1 a0
  let φx : Bool → ℝ := if a1 then (fun bb => φ (!bb)) else φ
  let φxz : Bool → ℝ := if a0 then (fun bb => if bb then -φx true else φx false) else φx
  φxz b

/-- Joint probability that Alice's register reads `(a0, a1)` and Bob's
final measurement of `Bell₁` reads `b`. -/
def teleJointProb (θ : ℝ) (a0 a1 b : Bool) : ℝ := bobAmp θ a0 a1 b ^ 2

/-- `tele_counts`: the distribution of Bob's bit after marginalizing
the counts over Alice's two classical bits (STEP 5 of the notebook). -/
def teleBobProb (θ : ℝ) (b : Bool) : ℝ :=
  teleJointProb θ false false b + teleJointProb θ true false b +
    teleJointProb θ false true b + teleJointProb θ true true b

/-- A single-qubit statevector. -/
def QState1 := Bool → ℝ

/-- The original single-qubit circuit `qc = ry(θ, 0)` on `|0⟩`. -/
def ry1 (θ : ℝ) : QState1 := fun b =>
  if b then Real.sin (θ / 2) else Real.cos (θ / 2)

/-- `job_static`: distribution from measuring `ry(θ)|0⟩` directly. -/
def directProb (θ : ℝ) (b : Bool) : ℝ := ry1 θ b ^ 2

end

lemma teleUnitary_eval (θ : ℝ) (b2 b1 b0 : Bool) :
    teleUnitary θ b2 b1 b0 =
      (if b2 = b1 then Real.cos (θ / 2) else Real.sin (θ / 2)) *
        (if xor b2 b1 && b0 then -1 else 1) / 2 := by
  have hs : Real.sqrt 2 ≠ 0 := ne_of_gt sqrt_two_pos
  cases b2 <;> cases b1 <;> cases b0 <;>
    simp [teleUnitary, t_h0, t_cx01, t_cx12, t_h1, t_ry0, init3]
  all_goals field_simp

lemma teleJointProb_eval (θ : ℝ) (a0 a1 b : Bool) :
    teleJointProb θ a0 a1 b =
      (if b then Real.sin (θ / 2) else Real.cos (θ / 2)) ^ 2 / 4 := by
  cases a0 <;> cases a1 <;> cases b <;>
    · simp [teleJointProb, bobAmp, teleUnitary_eval]
      ring

lemma teleBobProb_eq_directProb (θ : ℝ) (b : Bool) :
    teleBobProb θ b = directProb θ b := by
  cases b <;>
    · simp [teleBobProb, teleJointProb_eval, directProb, ry1]
      ring

lemma cos_pi_div_seven_bounds :
    0.897 < Real.cos (Real.pi / 7) ∧ Real.cos (Real.pi / 7) < 0.902 := by
  set x : ℝ := Real.pi / 7 with hx
  have hxl : (0.448798 : ℝ) < x := by
    rw [hx]
    linarith [Real.pi_gt_d6]
  have hxu : x < 0.448800 := by
    rw [hx]
    linarith [Real.pi_lt_d6]
  have hxpos : (0 : ℝ) < x := by linarith
  have habs : |x| ≤ 1 := by
    rw [abs_of_pos hxpos]
    linarith
  have hcb := Real.cos_bound habs
  rw [abs_of_pos hxpos] at hcb
  rw [abs_le] at hcb
  have hx2u : x ^ 2 < 0.2014215 := by nlinarith
  have hx2l : (0.2014196 : ℝ) < x ^ 2 := by nlinarith
  have hx4u : x ^ 4 < 0.040571 := by nlinarith [sq_nonneg (x ^ 2)]
  have hx4pos : 0 < x ^ 4 := by positivity
  constructor
  · nlinarith [hcb.1, hcb.2]
  · nlinarith [hcb.1, hcb.2]

/-- **C2.** The teleportation protocol succeeds: for every angle `θ`,
the distribution of Bob's measurement of `Bell₁`, after marginalizing
the counts of `full_qc` over Alice's two classical bits, equals the
distribution of measuring `ry(θ)|0⟩` directly; that common
distribution assigns `P(1) = sin²(θ/2)`; and at the notebook's angle
`θ = 5π/7` this probability is about `0.80` (strictly between `0.8`
and `0.82`). -/
theorem C2_teleportation_succeeds :
    (∀ (θ : ℝ) (b : Bool), teleBobProb θ b = directProb θ b) ∧
    (∀ θ : ℝ, teleBobProb θ true = Real.sin (θ / 2) ^ 2) ∧
    (0.8 < teleBobProb (5 * Real.pi / 7) true ∧
      teleBobProb (5 * Real.pi / 7) true < 0.82) := by
  have hmarg : ∀ (θ : ℝ) (b : Bool), teleBobProb θ b = directProb θ b :=
    teleBobProb_eq_directProb
  have hsin : ∀ θ : ℝ, teleBobProb θ true = Real.sin (θ / 2) ^ 2 := by
    intro θ
    rw [hmarg θ true]
    simp [directProb, ry1]
  refine ⟨hmarg, hsin, ?_, ?_⟩
  · rw [hsin]
    have h57 : 5 * Real.pi / 7 / 2 = Real.pi / 2 - Real.pi / 7 := by ring
    rw [h57, Real.sin_pi_div_two_sub]
    nlinarith [cos_pi_div_seven_bounds.1, cos_pi_div_seven_bounds.2]
  · rw [hsin]
    have h57 : 5 * Real.pi / 7 / 2 = Real.pi / 2 - Real.pi / 7 := by ring
    rw [h57, Real.sin_pi_div_two_sub]
    nlinarith [cos_pi_div_seven_bounds.1, cos_pi_div_seven_bounds.2]

/-! ## The classical CHSH bound

The CHSH notebook's markdown derives: measurements `A, a, B, b` that
can each only yield `±1` satisfy `A(B-b) + a(B+b) = ±2`, so under any
local-hidden-variable distribution
`|⟨AB⟩ - ⟨Ab⟩ + ⟨aB⟩ + ⟨ab⟩| ≤ 2`. -/

noncomputable section

/-- The `±1` measurement value encoded by a classical bit. -/
def sgn (v : Bool) : ℝ := if v then 1 else -1

/-- The quantity `A*(B - b) + a*(B + b) = AB - Ab + aB + ab` for one
assignment of classical outcomes. -/
def chshCombo (A a B b : Bool) : ℝ :=
  sgn A * (sgn B - sgn b) + sgn a * (sgn B + sgn b)

/-- Total mass of a (purported) distribution over the 16 assignments. -/
def lhvTotal (p : Bool → Bool → Bool → Bool → ℝ) : ℝ :=
  ∑ A : Bool, ∑ a : Bool, ∑ B : Bool, ∑ b : Bool, p A a B b

/-- Expectation of an observable under a distribution over assignments. -/
def lhvExp (p f : Bool → Bool → Bool → Bool → ℝ) : ℝ :=
  ∑ A : Bool, ∑ a : Bool, ∑ B : Bool, ∑ b : Bool, p A a B b * f A a B b

end

/-- **C3.** Classical CHSH bound: every `±1` assignment gives
`A*(B - b) + a*(B + b) = ±2`, and consequently every probability
distribution over such assignments satisfies
`|E[AB] - E[Ab] + E[aB] + E[ab]| ≤ 2`. -/
theorem C3_classical_chsh_bound :
    (∀ A a B b : Bool, chshCombo A a B b = 2 ∨ chshCombo A a B b = -2) ∧
    (∀ p : Bool → Bool → Bool → Bool → ℝ,
      (∀ A a B b, 0 ≤ p A a B b) → lhvTotal p = 1 →
      |lhvExp p (fun A _ B _ => sgn A * sgn B) -
          lhvExp p (fun A _ _ b => sgn A * sgn b) +
          lhvExp p (fun _ a B _ => sgn a * sgn B) +
          lhvExp p (fun _ a _ b => sgn a * sgn b)| ≤ 2) := by
  constructor
  · intro A a B b
    cases A <;> cases a <;> cases B <;> cases b <;> simp [chshCombo, sgn] <;> norm_num
  · intro p hp hsum
    simp only [lhvExp, lhvTotal, sgn, Fintype.sum_bool] at *
    rw [abs_le]
    norm_num
    constructor <;>
      linarith [hp false false false false, hp false false false true,
        hp false false true false, hp false false true true,
        hp false true false false, hp false true false true,
        hp false true true false, hp false true true true,
        hp true false false false, hp true false false true,
        hp true false true false, hp true false true true,
        hp true true false false, hp true true false true,
        hp true true true false, hp true true true true]

/-- Witness for C3: the bound holds at the uniform distribution. -/
theorem C3_classical_chsh_bound_witness :
    |lhvExp (fun _ _ _ _ => (1 : ℝ) / 16) (fun A _ B _ => sgn A * sgn B) -
        lhvExp (fun _ _ _ _ => (1 : ℝ) / 16) (fun A _ _ b => sgn A * sgn b) +
        lhvExp (fun _ _ _ _ => (1 : ℝ) / 16) (fun _ a B _ => sgn a * sgn B) +
        lhvExp (fun _ _ _ _ => (1 : ℝ) / 16) (fun _ a _ b => sgn a * sgn b)| ≤ 2 :=
  C3_classical_chsh_bound.2 (fun _ _ _ _ => (1 : ℝ) / 16)
    (fun _ _ _ _ => by norm_num)
    (by simp [lhvTotal, Fintype.sum_bool]; norm_num)

/-! ## Circuit depth

The depth notebook compares two 4-qubit circuits with 6 gates each.
A circuit is modelled by the list of its instructions, each given by
the list of qubit indices it acts on.  `circuitDepth` is Qiskit's
`QuantumCircuit.depth`: schedule each instruction one layer past the
deepest layer already occupied on the qubits it touches, and return
the deepest occupied layer. -/

/-- Layer in which an instruction on qubits `g` is scheduled: one past
the deepest current layer among the qubits it touches. -/
def gateLevel (levels : ℕ → ℕ) (g : List ℕ) : ℕ :=
  (g.map levels).foldr max 0 + 1

/-- Per-qubit layer levels after scheduling one instruction. -/
def applyGateLevels (levels : ℕ → ℕ) (g : List ℕ) : ℕ → ℕ :=
  fun j => if j ∈ g then gateLevel levels g else levels j

/-- Per-qubit layer levels after scheduling the whole instruction list. -/
def finalLevels (gates : List (List ℕ)) : ℕ → ℕ :=
  gates.foldl applyGateLevels fun _ => 0

/-- `QuantumCircuit.depth` of a circuit on `n` qubits. -/
def circuitDepth (n : ℕ) (gates : List (List ℕ)) : ℕ :=
  ((List.range n).map (finalLevels gates)).foldr max 0

/-- The first depth example `qc`:
`h(0); s(0); s(0); s(0); cx(0,1); cx(1,3)` on 4 qubits. -/
def qcDepth6 : List (List ℕ) := [[0], [0], [0], [0], [0, 1], [1, 3]]

/-- The second depth example `qc2`:
`h(0); s(1); cx(0,1); s(2); s(3); cx(2,3)` on 4 qubits. -/
def qc2Depth2 : List (List ℕ) := [[0], [1], [0, 1], [2], [3], [2, 3]]

lemma foldr_max_le (l : List ℕ) (m : ℕ) (h : ∀ x ∈ l, x ≤ m) :
    l.foldr max 0 ≤ m := by
  induction l with
  | nil => simp
  | cons x xs ih =>
    simp only [List.foldr_cons, max_le_iff]
    exact ⟨h x (by simp), ih fun y hy => h y (by simp [hy])⟩

lemma le_foldr_max (l : List ℕ) (x : ℕ) (h : x ∈ l) :
    x ≤ l.foldr max 0 := by
  induction l with
  | nil => simp at h
  | cons y ys ih =>
    simp only [List.foldr_cons, le_max_iff]
    rcases List.mem_cons.mp h with h' | h'
    · exact Or.inl h'.le
    · exact Or.inr (ih h')

lemma foldl_applyGateLevels (gates : List (List ℕ)) (q : ℕ) :
    ∀ levels : ℕ → ℕ, (∀ g ∈ gates, q ∈ g) → (∀ j, levels j ≤ levels q) →
      (gates.foldl applyGateLevels levels) q = levels q + gates.length ∧
      ∀ j, (gates.foldl applyGateLevels levels) j ≤ levels q + gates.length := by
  induction gates with
  | nil => simp
  | cons g gs ih =>
    intro levels hall hmax
    have hq : q ∈ g := hall g (by simp)
    have hfold : (g.map levels).foldr max 0 = levels q := by
      apply le_antisymm
      · apply foldr_max_le
        intro x hx
        rcases List.mem_map.mp hx with ⟨j, _, rfl⟩
        exact hmax j
      · exact le_foldr_max _ _ (List.mem_map.mpr ⟨q, hq, rfl⟩)
    have hgl : gateLevel levels g = levels q + 1 := by
      rw [gateLevel, hfold]
    have hnewq : applyGateLevels levels g q = levels q + 1 := by
      rw [applyGateLevels]
      simp [hq, hgl]
    have hnewmax : ∀ j, applyGateLevels levels g j ≤ applyGateLevels levels g q := by
      intro j
      rw [hnewq, applyGateLevels]
      by_cases hj : j ∈ g
      · simp [hj, hgl]
      · simp only [hj, if_false]
        exact (hmax j).trans (by omega)
    have := ih (applyGateLevels levels g) (fun g' hg' => hall g' (by simp [hg']))
      hnewmax
    rw [List.foldl_cons]
    constructor
    · rw [this.1, hnewq, List.length_cons]
      omega
    · intro j
      have hj := this.2 j
      rw [hnewq] at hj
      rw [List.length_cons]
      omega

lemma circuitDepth_of_common_qubit (n q : ℕ) (gates : List (List ℕ))
    (hq : q < n) (hall : ∀ g ∈ gates, q ∈ g) :
    circuitDepth n gates = gates.length := by
  have h := foldl_applyGateLevels gates q (fun _ => 0) hall (fun _ => le_rfl)
  rw [circuitDepth]
  apply le_antisymm
  · apply foldr_max_le
    intro x hx
    rcases List.mem_map.mp hx with ⟨j, _, rfl⟩
    have := h.2 j
    simpa [finalLevels] using this
  · have hmem : finalLevels gates q ∈ (List.range n).map (finalLevels gates) :=
      List.mem_map.mpr ⟨q, List.mem_range.mpr hq, rfl⟩
    have := le_foldr_max _ _ hmem
    have hfq : finalLevels gates q = gates.length := by
      simpa [finalLevels] using h.1
    omega

/-- **C9.** The two 4-qubit depth examples each contain exactly 6
instructions; `qc` (all early gates chained through shared qubits)
has depth 6 while `qc2` (gates on disjoint qubits sharing layers) has
depth 2; and in general a circuit in which every instruction touches
one common qubit has depth equal to its instruction count. -/
theorem C9_circuit_depth :
    (qcDepth6.length = 6 ∧ circuitDepth 4 qcDepth6 = 6) ∧
    (qc2Depth2.length = 6 ∧ circuitDepth 4 qc2Depth2 = 2) ∧
    (∀ (n q : ℕ) (gates : List (List ℕ)), q < n →
      (∀ g ∈ gates, q ∈ g) → circuitDepth n gates = gates.length) := by
  refine ⟨⟨by decide, by decide⟩, ⟨by decide, by decide⟩, ?_⟩
  intro n q gates hq hall
  exact circuitDepth_of_common_qubit n q gates hq hall

/-- Witness for C9: the general depth law applied to a concrete
two-qubit circuit whose two instructions both touch qubit 0. -/
theorem C9_circuit_depth_witness :
    circuitDepth 2 [[0], [0, 1]] = [[0], [0, 1]].length :=
  C9_circuit_depth.2.2 2 0 [[0], [0, 1]] (by decide) (by decide)

/-! ## The notebooks' code cells as structured statements

For the textual claims (imports vs. the setup guide, error handling,
externality of the primitives, shared mutable globals, persistence)
each code cell is transcribed as the list of its Python statements.
Literal arguments (integers, strings, lists of literals) are omitted;
the `List String` argument of a call records which notebook-level
names the call reads. -/

/-- One Python statement of a notebook code cell. -/
inductive PyStmt where
  /-- `from <module> import <names>` -/
  | fromImport (module : String) (names : List String)
  /-- `import <module>` or `import <module> as <alias>`; `bound` is the
  name the statement binds in the notebook namespace -/
  | importAs (module : String) (bound : String)
  /-- `lhs = Ctor(...)`: bind `lhs` to a newly constructed library object -/
  | assignCtor (lhs ctor : String) (reads : List String)
  /-- `lhs = obj.method(...)`: bind `lhs` to a method-call result -/
  | assignCall (lhs obj method : String) (reads : List String)
  /-- `lhs = <expression>`: bind `lhs` to a pure expression -/
  | assignExpr (lhs : String) (reads : List String)
  /-- expression statement `obj.method(...)` that mutates `obj` in place -/
  | mutCall (obj method : String) (reads : List String)
  /-- expression statement `obj.method(...)` with no mutation of
  notebook state (rendering such as `draw`) -/
  | pureCall (obj method : String) (reads : List String)
  /-- expression statement `f(...)` calling a top-level function -/
  | fnCall (fn : String) (reads : List String)
  /-- bare expression statement (displayed by the notebook) -/
  | exprRead (reads : List String)
  /-- IPython magic such as `%qiskit_version_table` -/
  | magic (name : String)
  /-- `def name(...):` — never used by either notebook -/
  | defFn (name : String)
  /-- `class name:` — never used by either notebook -/
  | classDef (name : String)
  /-- `try:/except:` — never used by either notebook -/
  | tryExcept
  /-- `raise` — never used by either notebook -/
  | raiseStmt
  /-- `async def` — never used by either notebook -/
  | asyncDef (name : String)
  /-- `yield` — never used by either notebook -/
  | yieldStmt
  deriving DecidableEq

open PyStmt

/-- The code cells of `challenge_chsh.ipynb`, in order. -/
def chshCodeCells : List (List PyStmt) := [
  -- cell: imports and matplotlib style
  [fromImport "qiskit.circuit" ["QuantumCircuit"],
   fromImport "qiskit.primitives" ["Estimator", "Sampler"],
   fromImport "qiskit.quantum_info" ["SparsePauliOp"],
   fromImport "qiskit.visualization" ["plot_histogram"],
   importAs "numpy" "np",
   importAs "matplotlib.pyplot" "plt",
   pureCall "plt" "style.use" []],
  -- cell: qc_1 = QuantumCircuit(1); qc_1.x(0); qc_1.draw('mpl')
  [assignCtor "qc_1" "QuantumCircuit" [],
   mutCall "qc_1" "x" [],
   pureCall "qc_1" "draw" []],
  -- cell: qc_plus = QuantumCircuit(1); qc_plus.h(0); qc_plus.draw('mpl')
  [assignCtor "qc_plus" "QuantumCircuit" [],
   mutCall "qc_plus" "h" [],
   pureCall "qc_plus" "draw" []],
  -- cell: measure_all on both circuits; sampler; two runs
  [mutCall "qc_1" "measure_all" [],
   mutCall "qc_plus" "measure_all" [],
   assignCtor "sampler" "Sampler" [],
   assignCall "job_1" "sampler" "run" ["qc_1"],
   assignCall "job_plus" "sampler" "run" ["qc_plus"]],
  -- cell: job_1.result().quasi_dists
  [exprRead ["job_1"]],
  -- cell: job_plus.result().quasi_dists
  [exprRead ["job_plus"]],
  -- cell: legend = [...]; plot_histogram(...)
  [assignExpr "legend" [],
   fnCall "plot_histogram" ["job_1", "job_plus", "legend"]],
  -- cell: remove measurements, student answer gap, re-measure (STEP 1)
  [mutCall "qc_1" "remove_final_measurements" [],
   mutCall "qc_plus" "remove_final_measurements" [],
   mutCall "qc_1" "measure_all" [],
   mutCall "qc_plus" "measure_all" []],
  -- cell: fresh sampler, rerun both circuits
  [assignCtor "sampler" "Sampler" [],
   assignCall "job_1" "sampler" "run" ["qc_1"],
   assignCall "job_plus" "sampler" "run" ["qc_plus"]],
  -- cell: plot_histogram(...)
  [fnCall "plot_histogram" ["job_1", "job_plus", "legend"]],
  -- cell: qc2_1, qc2_plus, obsvs = list(SparsePauliOp(['Z', 'X']))
  [assignCtor "qc2_1" "QuantumCircuit" [],
   mutCall "qc2_1" "x" [],
   assignCtor "qc2_plus" "QuantumCircuit" [],
   mutCall "qc2_plus" "h" [],
   assignCtor "obsvs" "SparsePauliOp" []],
  -- cell: estimator and two estimator runs
  [assignCtor "estimator" "Estimator" [],
   assignCall "job2_1" "estimator" "run" ["qc2_1", "obsvs"],
   assignCall "job2_plus" "estimator" "run" ["qc2_plus", "obsvs"]],
  -- cell: job2_1.result()
  [exprRead ["job2_1"]],
  -- cell: four prints of the expectation table
  [fnCall "print" [],
   fnCall "print" [],
   fnCall "print" ["job2_1"],
   fnCall "print" ["job2_plus"]],
  -- cell: STEP 2 answer gap (docstring expression only)
  [exprRead []],
  -- cell: Parameter import; parameterized CHSH circuit
  [fromImport "qiskit.circuit" ["Parameter"],
   assignCtor "theta" "Parameter" [],
   assignCtor "qc" "QuantumCircuit" [],
   mutCall "qc" "h" [],
   mutCall "qc" "cx" [],
   mutCall "qc" "ry" ["theta"],
   pureCall "qc" "draw" []],
  -- cell: CHALLENGE 3 answer gap; print(angles)
  [exprRead [],
   fnCall "print" ["angles"]],
  -- cell: estimator run over the angles and the witness plot
  [assignCtor "estimator" "Estimator" [],
   assignCall "job" "estimator" "run" ["qc", "obsv", "angles"],
   assignExpr "exps" ["job"],
   pureCall "plt" "plot" ["angles", "exps"],
   pureCall "plt" "plot" ["angles"],
   pureCall "plt" "plot" ["angles"],
   pureCall "plt" "xlabel" [],
   pureCall "plt" "ylabel" [],
   pureCall "plt" "legend" []],
  -- cell: register imports for teleportation
  [fromImport "qiskit.circuit" ["ClassicalRegister", "QuantumRegister"]],
  -- cell: theta, qr, qc = QuantumCircuit(qr); qc.ry(theta, 0)
  [assignCtor "theta" "Parameter" [],
   assignCtor "qr" "QuantumRegister" [],
   assignCtor "qc" "QuantumCircuit" ["qr"],
   mutCall "qc" "ry" ["theta"],
   pureCall "qc" "draw" []],
  -- cell: tele_qc = qc.copy(); registers added
  [assignCall "tele_qc" "qc" "copy" [],
   assignCtor "bell" "QuantumRegister" [],
   assignCtor "alice" "ClassicalRegister" [],
   assignCtor "bob" "ClassicalRegister" [],
   mutCall "tele_qc" "add_register" ["bell", "alice", "bob"],
   pureCall "tele_qc" "draw" []],
  -- cell: Bell pair preparation on tele_qc
  [mutCall "tele_qc" "barrier" [],
   mutCall "tele_qc" "h" [],
   mutCall "tele_qc" "cx" [],
   mutCall "tele_qc" "barrier" [],
   pureCall "tele_qc" "draw" []],
  -- cell: Alice's cx and h
  [mutCall "tele_qc" "cx" [],
   mutCall "tele_qc" "h" [],
   mutCall "tele_qc" "barrier" [],
   pureCall "tele_qc" "draw" []],
  -- cell: Alice's measurement into her register
  [mutCall "tele_qc" "measure" ["qr", "bell", "alice"],
   pureCall "tele_qc" "draw" []],
  -- cell: full_qc = tele_qc.copy(); STEP 4 answer gap
  [assignCall "full_qc" "tele_qc" "copy" [],
   pureCall "full_qc" "draw" []],
  -- cell: Bob's final measurement
  [mutCall "full_qc" "barrier" [],
   mutCall "full_qc" "measure" ["bell", "bob"],
   pureCall "full_qc" "draw" []],
  -- cell: Aer sampler; run static and dynamic circuits at 5π/7
  [fromImport "qiskit_aer.primitives" ["Sampler"],
   assignExpr "angle" ["np"],
   assignCtor "sampler" "Sampler" [],
   mutCall "qc" "measure_all" [],
   assignCall "job_static" "sampler" "run" ["qc", "theta", "angle"],
   assignCall "job_dynamic" "sampler" "run" ["full_qc", "theta", "angle"],
   fnCall "print" ["job_static"],
   fnCall "print" ["job_dynamic"]],
  -- cell: marginal_counts import; STEP 5 answer gap
  [fromImport "qiskit.result" ["marginal_counts"],
   exprRead []],
  -- cell: final comparison histogram
  [assignExpr "legend" [],
   fnCall "plot_histogram" ["job_static", "tele_counts", "legend"]],
  -- cell: version table
  [importAs "qiskit.tools.jupyter" "qiskit",
   magic "qiskit_version_table"]]

/-- The code cells of `challenge_circuit_depth.ipynb`, in order. -/
def depthCodeCells : List (List PyStmt) := [
  -- cell: imports
  [fromImport "qiskit" ["QuantumCircuit", "transpile"],
   fromImport "qiskit.tools.jupyter" ["*"],
   fromImport "qiskit.visualization" ["*"],
   importAs "numpy" "np"],
  -- cell: qc = QuantumCircuit(1); qc.x(0); qc.draw()
  [assignCtor "qc" "QuantumCircuit" [],
   mutCall "qc" "x" [],
   pureCall "qc" "draw" []],
  -- cell: the bell circuit with measurement
  [assignCtor "bell" "QuantumCircuit" [],
   mutCall "bell" "h" [],
   mutCall "bell" "cx" [],
   mutCall "bell" "measure" [],
   pureCall "bell" "draw" []],
  -- cell: AerSimulator run of bell
  [fromImport "qiskit_aer" ["AerSimulator"],
   assignCtor "simulator" "AerSimulator" [],
   assignCall "job" "simulator" "run" ["bell"],
   assignCall "result" "job" "result" [],
   assignCall "counts" "result" "get_counts" [],
   fnCall "plot_histogram" ["counts"]],
  -- cell: PART 2 answer gap (comment only)
  [],
  -- cell: ghz_qc construction, size and gate-count prints
  [assignCtor "ghz_qc" "QuantumCircuit" [],
   mutCall "ghz_qc" "h" [],
   mutCall "ghz_qc" "cx" [],
   mutCall "ghz_qc" "cx" [],
   mutCall "ghz_qc" "measure" [],
   fnCall "print" ["ghz_qc"],
   fnCall "print" ["ghz_qc"],
   pureCall "ghz_qc" "draw" []],
  -- cell: AerSimulator run of ghz_qc
  [assignCtor "simulator" "AerSimulator" [],
   assignCall "job" "simulator" "run" ["ghz_qc"],
   assignCall "result" "job" "result" [],
   assignCall "counts" "result" "get_counts" [],
   fnCall "plot_histogram" ["counts"]],
  -- cell: PART 3 answer gap (comment only)
  [],
  -- cell: first depth example qc, print(qc.depth())
  [assignCtor "qc" "QuantumCircuit" [],
   mutCall "qc" "h" [],
   mutCall "qc" "s" [],
   mutCall "qc" "s" [],
   mutCall "qc" "s" [],
   mutCall "qc" "cx" [],
   mutCall "qc" "cx" [],
   fnCall "print" ["qc"],
   pureCall "qc" "draw" []],
  -- cell: second depth example qc2, print(qc2.depth())
  [assignCtor "qc2" "QuantumCircuit" [],
   mutCall "qc2" "h" [],
   mutCall "qc2" "s" [],
   mutCall "qc2" "cx" [],
   mutCall "qc2" "s" [],
   mutCall "qc2" "s" [],
   mutCall "qc2" "cx" [],
   fnCall "print" ["qc2"],
   pureCall "qc2" "draw" []],
  -- cell: PART 4 answer gap (comment only)
  [],
  -- cell: AerSimulator run of the student's ghz_new_qc
  [assignCtor "simulator" "AerSimulator" [],
   assignCall "job" "simulator" "run" ["ghz_new_qc"],
   assignCall "result" "job" "result" [],
   assignCall "counts" "result" "get_counts" [],
   fnCall "plot_histogram" ["counts"]],
  -- cell: version table
  [importAs "qiskit.tools.jupyter" "qiskit",
   magic "qiskit_version_table"]]

/-- All code cells of both notebooks. -/
def allCodeCells : List (List PyStmt) := chshCodeCells ++ depthCodeCells

/-- The package list of the setup guide (the repository's plain-text
requirements section): the names to `pip install`. -/
def setupGuidePackages : List String :=
  ["qiskit", "qiskit-aer", "matplotlib", "pylatexenc", "jupyter"]

/-- The module named by an import statement, if the statement is one. -/
def stmtImportedModule : PyStmt → Option String
  | fromImport m _ => some m
  | importAs m _ => some m
  | _ => none

/-- All modules imported by a list of cells, in order of appearance. -/
def importedModules (cells : List (List PyStmt)) : List String :=
  (cells.flatten).filterMap stmtImportedModule

/-- Top-level package of a dotted module path
(`"qiskit.circuit" ↦ "qiskit"`). -/
def topPackageOf (m : String) : String :=
  String.mk (m.toList.takeWhile (fun c => c ≠ '.'))

/-- Top-level third-party packages imported by a list of cells. -/
def importedTopPackages (cells : List (List PyStmt)) : List String :=
  ((importedModules cells).map topPackageOf).dedup

/-- Pip package names normalized to Python module spelling
(`"qiskit-aer" ↦ "qiskit_aer"`). -/
def normalizePkgName (s : String) : String :=
  String.mk (s.toList.map (fun c => if c = '-' then '_' else c))

/-! ### C5: the setup guide's package list vs. the notebooks' imports -/

/-- **C5 (counterexample).** The claim as stated is false: `numpy`
appears in an import statement of both notebooks but is not named in
the setup guide's list of packages to install. -/
theorem C5_counterexample :
    ¬ (∀ pkg ∈ importedTopPackages allCodeCells,
        pkg ∈ setupGuidePackages.map normalizePkgName) := by
  intro h
  have h1 : "numpy" ∈ importedTopPackages allCodeCells := by decide
  have h2 : "numpy" ∉ setupGuidePackages.map normalizePkgName := by decide
  exact h2 (h "numpy" h1)

/-- **C5 (amended).** Every third-party package imported by a code
cell of either notebook other than `numpy` (that is, `qiskit`,
`qiskit_aer` and `matplotlib`) is named in the setup guide's package
list, up to pip's hyphen/underscore spelling; `numpy`, although
imported by both notebooks, is missing from the list. -/
theorem C5_setup_guide_packages :
    (∀ pkg ∈ importedTopPackages allCodeCells,
      pkg ≠ "numpy" → pkg ∈ setupGuidePackages.map normalizePkgName) ∧
    "numpy" ∈ importedTopPackages allCodeCells ∧
    "numpy" ∉ setupGuidePackages.map normalizePkgName := by
  refine ⟨?_, by decide, by decide⟩
  decide

/-- Witness for C5: the amended inclusion applied to `qiskit`. -/
theorem C5_setup_guide_packages_witness :
    "qiskit" ∈ setupGuidePackages.map normalizePkgName :=
  C5_setup_guide_packages.1 "qiskit" (by decide) (by decide)

/-! ### C6: no error handling is authored in the notebooks -/

/-- Whether a statement catches, raises or otherwise handles errors. -/
def usesErrorHandling : PyStmt → Bool
  | tryExcept => true
  | raiseStmt => true
  | _ => false

/-- **C6.** No code cell of either notebook contains a `try/except`,
`raise`, or any other statement that catches or transforms a failure,
so exceptions raised by library calls propagate unchanged. -/
theorem C6_no_error_handling :
    allCodeCells.all (fun cell => cell.all fun s => !usesErrorHandling s) = true := by
  decide

/-! ### C7: all quantum primitives come from the external SDK -/

/-- Whether a statement defines a callable of the notebook's own
(a `def`, `class` or `async def`). -/
def definesCallable : PyStmt → Bool
  | defFn _ => true
  | classDef _ => true
  | asyncDef _ => true
  | _ => false

/-- Constructor names invoked by `lhs = Ctor(...)` statements. -/
def ctorsUsed (cells : List (List PyStmt)) : List String :=
  cells.flatten.filterMap fun s =>
    match s with
    | assignCtor _ c _ => some c
    | _ => none

/-- Names imported from the external SDK packages `qiskit` and
`qiskit_aer` by the given cells. -/
def sdkImportedNames (cells : List (List PyStmt)) : List String :=
  (cells.flatten.map fun s =>
    match s with
    | fromImport m ns =>
        if topPackageOf m = "qiskit" ∨ topPackageOf m = "qiskit_aer" then ns else []
    | _ => []).flatten

/-- Top-level function names invoked as statements. -/
def fnCallNames (cells : List (List PyStmt)) : List String :=
  cells.flatten.filterMap fun s =>
    match s with
    | fnCall f _ => some f
    | _ => none

/-- **C7.** The notebooks define no function or class of their own:
every object constructed is an instance of a class imported from
`qiskit` or `qiskit_aer`, and every top-level function invoked is
either Python's built-in `print` or imported from those packages, so
all state preparation, measurement, sampling and estimation are
library calls. -/
theorem C7_primitives_external :
    (allCodeCells.all (fun cell => cell.all fun s => !definesCallable s) = true) ∧
    ((ctorsUsed allCodeCells).all
      (fun c => (sdkImportedNames allCodeCells).contains c) = true) ∧
    ((fnCallNames allCodeCells).all
      (fun f => f == "print" || (sdkImportedNames allCodeCells).contains f) = true) := by
  refine ⟨by decide, by decide, by decide⟩

/-! ### C8: shared mutable globals across cells -/

/-- The notebook-level name a statement binds, if any. -/
def stmtBinds : PyStmt → Option String
  | assignCtor l _ _ => some l
  | assignCall l _ _ _ => some l
  | assignExpr l _ => some l
  | importAs _ b => some b
  | _ => none

/-- Names bound by a cell. -/
def cellBinds (cell : List PyStmt) : List String := cell.filterMap stmtBinds

/-- Names a cell mutates in place through a method call. -/
def cellMutates (cell : List PyStmt) : List String :=
  cell.filterMap fun s =>
    match s with
    | mutCall o _ _ => some o
    | _ => none

/-- Notebook-level names a statement reads. -/
def stmtReads : PyStmt → List String
  | assignCtor _ _ rs => rs
  | assignCall _ o _ rs => o :: rs
  | assignExpr _ rs => rs
  | mutCall o _ rs => o :: rs
  | pureCall o _ rs => o :: rs
  | fnCall _ rs => rs
  | exprRead rs => rs
  | _ => []

/-- Names read by a cell. -/
def cellReads (cell : List PyStmt) : List String := (cell.map stmtReads).flatten

/-- `name` is a shared mutable global of the notebook `cells`: it is
bound in cell `i`, mutated in place in a later cell `j`, and read at
or after `j` in cell `k`. -/
def sharedMutableGlobalUse (cells : List (List PyStmt)) (name : String)
    (i j k : ℕ) : Prop :=
  i < j ∧ j ≤ k ∧ k < cells.length ∧
  name ∈ cellBinds (cells.getD i []) ∧
  name ∈ cellMutates (cells.getD j []) ∧
  name ∈ cellReads (cells.getD k [])

instance (cells : List (List PyStmt)) (name : String) (i j k : ℕ) :
    Decidable (sharedMutableGlobalUse cells name i j k) := by
  unfold sharedMutableGlobalUse
  infer_instance

/-- Whether a statement is a class definition. -/
def isClassDefStmt : PyStmt → Bool
  | classDef _ => true
  | _ => false

/-- Whether a statement uses coroutine control flow. -/
def isCoroutineStmt : PyStmt → Bool
  | asyncDef _ => true
  | yieldStmt => true
  | _ => false

/-- The re-architecture claim as the spec states it: no class
definitions, no coroutine control flow, and no notebook-authored value
that is shared mutable global state later cells depend on mutating. -/
def c8AsStated : Prop :=
  (allCodeCells.all (fun cell => cell.all fun s => !isClassDefStmt s) = true) ∧
  (allCodeCells.all (fun cell => cell.all fun s => !isCoroutineStmt s) = true) ∧
  ∀ (name : String) (i j k : ℕ), ¬ sharedMutableGlobalUse chshCodeCells name i j k

/-- **C8 (counterexample).** The claim as stated is false: `qc_1` is
bound in one cell of the CHSH notebook, mutated in place by
`remove_final_measurements`/`measure_all` in a later cell, and read by
`sampler.run(qc_1)` in a cell after that. -/
theorem C8_counterexample : ¬ c8AsStated := by
  intro h
  exact h.2.2 "qc_1" 1 7 8 (by decide)

/-- **C8 (amended).** The notebooks contain no class definitions and
no coroutine control flow, but notebook-authored circuits are shared
mutable global state: `qc_1` and `qc_plus` are module-level objects
mutated in place across cells by `measure_all` and
`remove_final_measurements`, and later cells depend on those
mutations. -/
theorem C8_no_rearchitecture_patterns :
    (allCodeCells.all (fun cell => cell.all fun s => !isClassDefStmt s) = true) ∧
    (allCodeCells.all (fun cell => cell.all fun s => !isCoroutineStmt s) = true) ∧
    sharedMutableGlobalUse chshCodeCells "qc_1" 1 7 8 ∧
    sharedMutableGlobalUse chshCodeCells "qc_plus" 2 7 8 := by
  refine ⟨by decide, by decide, by decide, by decide⟩

/-! ### C10: no persistence -/

/-- Method and function names invoked anywhere in the cells. -/
def calledNames (cells : List (List PyStmt)) : List String :=
  cells.flatten.filterMap fun s =>
    match s with
    | assignCall _ _ m _ => some m
    | mutCall _ m _ => some m
    | pureCall _ m _ => some m
    | fnCall f _ => some f
    | _ => none

/-- Library operations that would write durable storage. -/
def persistenceOps : List String :=
  ["open", "write", "save", "savefig", "to_file", "to_csv", "dump", "dumps"]

/-- Names of rendering-only statements (`pureCall` and `fnCall`). -/
def renderCallNames (cells : List (List PyStmt)) : List String :=
  cells.flatten.filterMap fun s =>
    match s with
    | pureCall _ m _ => some m
    | fnCall f _ => some f
    | _ => none

/-- Display and in-session plotting operations. -/
def renderOps : List String :=
  ["draw", "style.use", "plot", "xlabel", "ylabel", "legend", "print",
   "plot_histogram"]

/-- **C10.** No code cell of either notebook writes durable storage:
every import is from an in-memory scientific package, no method or
function invoked is a file-writing operation, and every
non-assigning call only renders values via `draw`, `print`, or
matplotlib plotting. -/
theorem C10_no_persistence :
    ((importedModules allCodeCells).all
      (fun m => ["qiskit", "qiskit_aer", "numpy", "matplotlib"].contains
        (topPackageOf m)) = true) ∧
    ((calledNames allCodeCells).all
      (fun n => !persistenceOps.contains n) = true) ∧
    ((renderCallNames allCodeCells).all
      (fun n => renderOps.contains n) = true) := by
  refine ⟨by decide, by decide, by decide⟩

end QSite
